import Mathlib

/-!
Shallow embedding of the passport-photo-extractor service core
(`src/server.js`, with the duplicated variant in `src/unnamed/part_000`).

The core consists of:
* the Face Selector (`bestFace`, a `reduce` over the detector output picking
  the face with the largest bounding-box area);
* the Crop Geometry Calculator (`calculatePassportCrop`, a pure function from
  a face box and the image dimensions to a clamped crop rectangle);
* the request pipeline around them (`handleCrop`): empty-detection rejection
  and the response formatter (binary JPEG vs base64 JSON envelope).

Numbers: the JavaScript source computes in IEEE-754 doubles; the embedding
idealises the arithmetic over `ℚ` (the operations used are +, -, *, /,
floor, round, min, max, all exact on `ℚ`).  Image dimensions (`img.width`,
`img.height`) are integers in the source and are embedded as `ℤ`.
-/

namespace PassportPhoto

/-- Axis-aligned face bounding box, `{x, y, width, height}` in source-image
pixel coordinates (spec data model; fields as read by the code). -/
structure Box where
  x : ℚ
  y : ℚ
  width : ℚ
  height : ℚ
deriving DecidableEq, Repr

/-- Derived attribute `area = width * height` (the face-api `box.area`
getter used by the selector's comparison). -/
def Box.area (b : Box) : ℚ := b.width * b.height

/-- One detected face: bounding box plus detector confidence score
(`detection.box` and the confidence the handler forwards as metadata). -/
structure DetectedFace where
  box : Box
  score : ℚ
deriving DecidableEq, Repr

/-- The crop rectangle handed to the image transformer
(`{left, top, width, height}` with integer pixel fields). -/
structure CropRegion where
  left : ℤ
  top : ℤ
  width : ℤ
  height : ℤ
deriving DecidableEq, Repr

/-! ### Crop Geometry Calculator (src/server.js lines 37-68) -/

/-- `const targetHeight = box.height / 0.75` (face height is 75% of the
crop height). -/
def targetHeight (box : Box) : ℚ := box.height / 0.75

/-- `const targetWidth = targetHeight * 0.77` (3.5 : 4.5 aspect ratio). -/
def targetWidth (box : Box) : ℚ := targetHeight box * 0.77

/-- `let cropX = faceCenterX - (targetWidth / 2)` where
`faceCenterX = box.x + box.width / 2`. -/
def initialCropX (box : Box) : ℚ :=
  box.x + box.width / 2 - targetWidth box / 2

/-- `let cropY = faceCenterY - (targetHeight / 2)` followed by
`cropY = cropY - (box.height * 0.1)` (upward head-room shift), where
`faceCenterY = box.y + box.height / 2`. -/
def initialCropY (box : Box) : ℚ :=
  box.y + box.height / 2 - targetHeight box / 2 - box.height * 0.1

/-- `if (v < 0) v = 0` — the lower boundary check. -/
def clampLow (v : ℚ) : ℚ := if v < 0 then 0 else v

/-- `if (v + extent > limit) v = limit - extent` — the upper boundary
check (translate-only: it moves the rectangle, never shrinks it). -/
def clampHigh (v extent limit : ℚ) : ℚ :=
  if v + extent > limit then limit - extent else v

/-- The x coordinate after both boundary checks, in source order. -/
def finalCropX (box : Box) (imageWidth : ℤ) : ℚ :=
  clampHigh (clampLow (initialCropX box)) (targetWidth box) (imageWidth : ℚ)

/-- The y coordinate after both boundary checks, in source order. -/
def finalCropY (box : Box) (imageHeight : ℤ) : ℚ :=
  clampHigh (clampLow (initialCropY box)) (targetHeight box) (imageHeight : ℚ)

/-- `calculatePassportCrop(box, imageWidth, imageHeight)` from
`src/server.js`: the final output applies `Math.max(0, Math.floor(.))` to
the coordinates and `Math.min(imageDim, Math.floor(.))` to the extents. -/
def calculatePassportCrop (box : Box) (imageWidth imageHeight : ℤ) : CropRegion :=
  { left := max 0 ⌊finalCropX box imageWidth⌋
    top := max 0 ⌊finalCropY box imageHeight⌋
    width := min imageWidth ⌊targetWidth box⌋
    height := min imageHeight ⌊targetHeight box⌋ }

/-- `calculatePassportCrop` of the duplicated variant
`src/unnamed/part_000` (lines 56-82): identical geometry, but the final
output is `Math.round` on all four fields, with no max/min capping.
JavaScript `Math.round` rounds half toward positive infinity, which is
Mathlib's `round`. -/
def calculatePassportCropRound (box : Box) (imageWidth imageHeight : ℤ) : CropRegion :=
  { left := round (finalCropX box imageWidth)
    top := round (finalCropY box imageHeight)
    width := round (targetWidth box)
    height := round (targetHeight box) }

/-- The final-output formulas exactly as the spec words them (section 4.2,
steps 1-7): face center, target sizes, initial rectangle, the ordered
translate-only clamps, then
`left = max(0, floor(cropX))`, `top = max(0, floor(cropY))`,
`width = min(imageWidth, floor(targetWidth))`,
`height = min(imageHeight, floor(targetHeight))`.
Written from the spec's words, to be compared with the code's
`calculatePassportCrop`. -/
def cropRegionSpec (box : Box) (imageWidth imageHeight : ℤ) : CropRegion :=
  let cx := box.x + box.width / 2
  let cy := box.y + box.height / 2
  let th := box.height / 0.75
  let tw := th * 0.77
  let cropX0 := cx - tw / 2
  let cropY0 := cy - th / 2 - box.height * 0.1
  let cropX1 := if cropX0 < 0 then 0 else cropX0
  let cropY1 := if cropY0 < 0 then 0 else cropY0
  let cropX2 := if cropX1 + tw > (imageWidth : ℚ) then (imageWidth : ℚ) - tw else cropX1
  let cropY2 := if cropY1 + th > (imageHeight : ℚ) then (imageHeight : ℚ) - th else cropY1
  { left := max 0 ⌊cropX2⌋
    top := max 0 ⌊cropY2⌋
    width := min imageWidth ⌊tw⌋
    height := min imageHeight ⌊th⌋ }

/-! ### Face Selector (src/server.js lines 90-92; identical in the variant) -/

/-- The reducer passed to `detections.reduce`:
`(prev, current) => (prev.detection.box.area > current.detection.box.area) ? prev : current`. -/
def pickLarger (prev curr : DetectedFace) : DetectedFace :=
  if prev.box.area > curr.box.area then prev else curr

/-- `detections.reduce(pickLarger)` on a non-empty detection list:
JavaScript `reduce` with no initial value starts from the first element and
folds the reducer over the rest.  The pipeline guarantees the list is
non-empty before this runs, so the selector is embedded on `first :: rest`. -/
def bestFace (first : DetectedFace) (rest : List DetectedFace) : DetectedFace :=
  rest.foldl pickLarger first

/-! ### Request pipeline (src/server.js lines 74-125) -/

/-- The uploaded file as the handler sees it: `req.file.buffer` and
`req.file.size`. -/
structure UploadedFile where
  bytes : List ℕ
  size : ℕ

/-- The property read `box.score` performed at src/server.js line 113 on
`box = bestFace.detection.box`: neither the spec's BoundingBox data model
(section 3) nor the face-api `Box` class carries a `score` field (the
confidence lives on the detection object), so in JavaScript this read
evaluates to `undefined`.  The embedding renders that absent value as
`none`. -/
def Box.scoreProperty (_ : Box) : Option ℚ := none

/-- The possible responses of `POST /api/crop` (src/server.js):
400 plain-text when no file is attached, 422 JSON when no face is detected,
200 JSON envelope for `format=base64`, 200 binary JPEG otherwise, and the
500 catch-all of the try/catch boundary.  `faceConfidence` is an `Option`:
`res.json` serializes an `undefined` field by omitting the key, embedded
here as `none`. -/
inductive CropResponse where
  | badRequest (body : String)
  | noFace (error : String)
  | jsonImage (image : String) (originalSize : ℕ) (faceConfidence : Option ℚ)
  | binaryJpeg (contentType : String) (data : List ℕ)
  | serverError (error : String) (details : String)

/-- The HTTP status code each response constructor is sent with. -/
def CropResponse.status : CropResponse → ℕ
  | .badRequest _ => 400
  | .noFace _ => 422
  | .jsonImage _ _ _ => 200
  | .binaryJpeg _ _ => 200
  | .serverError _ _ => 500

/-- `const returnFormat = req.query.format || 'binary'`: an absent or empty
(JavaScript-falsy) query parameter falls back to `'binary'`. -/
def returnFormat (format : Option String) : String :=
  match format with
  | none => "binary"
  | some s => if s = "" then "binary" else s

/-- The `/api/crop` handler after the opaque external steps are abstracted:
`select` is the Face Selector, `crop` the Crop Geometry Calculator,
`transform` the sharp extract-resize-encode step, `encode` the base64
encoder.  Control flow follows src/server.js lines 74-119: missing file,
empty detection list, then select, crop, transform and format.  The 500
catch branch only fires when an opaque step throws, which the total
embedding of those steps does not model.  The base64 branch forwards the
undefined `box.score` read of line 113, embedded by `Box.scoreProperty`
(the selected face's actual confidence, `best.score`, is never sent). -/
def handleCrop (select : DetectedFace → List DetectedFace → DetectedFace)
    (crop : Box → ℤ → ℤ → CropRegion)
    (transform : List ℕ → CropRegion → List ℕ)
    (encode : List ℕ → String)
    (file : Option UploadedFile) (imgWidth imgHeight : ℤ)
    (detections : List DetectedFace) (format : Option String) : CropResponse :=
  match file with
  | none => .badRequest "No file uploaded."
  | some f =>
    match detections with
    | [] => .noFace "No face detected in the photo."
    | d :: ds =>
      let best := select d ds
      let region := crop best.box imgWidth imgHeight
      let output := transform f.bytes region
      if returnFormat format = "base64" then
        .jsonImage ("data:image/jpeg;base64," ++ encode output) f.size
          best.box.scoreProperty
      else
        .binaryJpeg "image/jpeg" output

/-! ### Helper lemmas -/

theorem clampLow_nonneg (v : ℚ) : 0 ≤ clampLow v := by
  unfold clampLow
  split
  · exact le_refl 0
  · next h => exact le_of_not_lt h

theorem clampHigh_add_le (v extent limit : ℚ) : clampHigh v extent limit + extent ≤ limit := by
  unfold clampHigh
  split
  · next h => linarith
  · next h => exact le_of_not_lt h

theorem floor_add_floor_le (a b : ℚ) : ⌊a⌋ + ⌊b⌋ ≤ ⌊a + b⌋ := by
  apply Int.le_floor.mpr
  push_cast
  exact add_le_add (Int.floor_le a) (Int.floor_le b)

/-- The capped output pair stays inside the image: if the clamped coordinate
plus the target extent fits in the image, so do the floored, capped fields. -/
theorem maxmin_le (c e : ℚ) (limit : ℤ) (h : c + e ≤ (limit : ℚ)) :
    max 0 ⌊c⌋ + min limit ⌊e⌋ ≤ limit := by
  rcases le_or_lt ⌊c⌋ 0 with h0 | h0
  · rw [max_eq_left h0]
    simp [min_le_left limit ⌊e⌋]
  · rw [max_eq_right (le_of_lt h0)]
    have h1 : min limit ⌊e⌋ ≤ ⌊e⌋ := min_le_right _ _
    have h2 : ⌊c⌋ + ⌊e⌋ ≤ ⌊c + e⌋ := floor_add_floor_le c e
    have h3 : ⌊c + e⌋ ≤ limit := by
      have h4 := Int.floor_le_floor h
      simpa using h4
    omega

theorem crop_left_nonneg (box : Box) (iw ih : ℤ) :
    0 ≤ (calculatePassportCrop box iw ih).left :=
  le_max_left 0 _

theorem crop_top_nonneg (box : Box) (iw ih : ℤ) :
    0 ≤ (calculatePassportCrop box iw ih).top :=
  le_max_left 0 _

theorem crop_left_add_width_le (box : Box) (iw ih : ℤ) :
    (calculatePassportCrop box iw ih).left + (calculatePassportCrop box iw ih).width ≤ iw :=
  maxmin_le (finalCropX box iw) (targetWidth box) iw (clampHigh_add_le _ _ _)

theorem crop_top_add_height_le (box : Box) (iw ih : ℤ) :
    (calculatePassportCrop box iw ih).top + (calculatePassportCrop box iw ih).height ≤ ih :=
  maxmin_le (finalCropY box ih) (targetHeight box) ih (clampHigh_add_le _ _ _)

theorem pickLarger_left_le (a b : DetectedFace) :
    a.box.area ≤ (pickLarger a b).box.area := by
  unfold pickLarger
  split
  · exact le_refl _
  · next h => exact le_of_not_lt h

theorem pickLarger_right_le (a b : DetectedFace) :
    b.box.area ≤ (pickLarger a b).box.area := by
  unfold pickLarger
  split
  · next h => exact le_of_lt h
  · exact le_refl _

/-- The running accumulator of the selector's fold never loses area. -/
theorem bestFace_init_area_le (rest : List DetectedFace) :
    ∀ first : DetectedFace, first.box.area ≤ (bestFace first rest).box.area := by
  induction rest with
  | nil => intro a; exact le_refl _
  | cons g fs ih =>
      intro a
      exact le_trans (pickLarger_left_le a g) (ih (pickLarger a g))

/-! ### Claim theorems -/

/-- Claim C2: for every input box and image dimensions, the Crop Geometry
Calculator of src/server.js produces exactly the spec's final-output
formulas: left = max(0, floor(cropX)), top = max(0, floor(cropY)),
width = min(imageWidth, floor(targetWidth)),
height = min(imageHeight, floor(targetHeight)), with truncation via floor
(never round-to-nearest), after the spec's ordered translate-only clamps. -/
theorem calculatePassportCrop_matches_spec (box : Box) (imageWidth imageHeight : ℤ) :
    calculatePassportCrop box imageWidth imageHeight = cropRegionSpec box imageWidth imageHeight :=
  rfl

/-- Claim C6: at box x=100, y=100, width=100, height=100 in a 400 by 400
image, the calculator returns left 98, top 73, width 102, height 133 (from
targetHeight 400/3, targetWidth 308/3, face center (150,150), upward shift
of 10), and the rectangle lies within the image. -/
theorem crop_boundary_scenario :
    calculatePassportCrop ⟨100, 100, 100, 100⟩ 400 400 = ⟨98, 73, 102, 133⟩ ∧
    targetHeight ⟨100, 100, 100, 100⟩ = 400 / 3 ∧
    targetWidth ⟨100, 100, 100, 100⟩ = 308 / 3 ∧
    0 ≤ (calculatePassportCrop ⟨100, 100, 100, 100⟩ 400 400).left ∧
    0 ≤ (calculatePassportCrop ⟨100, 100, 100, 100⟩ 400 400).top ∧
    (calculatePassportCrop ⟨100, 100, 100, 100⟩ 400 400).left +
      (calculatePassportCrop ⟨100, 100, 100, 100⟩ 400 400).width ≤ 400 ∧
    (calculatePassportCrop ⟨100, 100, 100, 100⟩ 400 400).top +
      (calculatePassportCrop ⟨100, 100, 100, 100⟩ 400 400).height ≤ 400 := by
  norm_num [calculatePassportCrop, finalCropX, finalCropY, clampLow, clampHigh,
    initialCropX, initialCropY, targetWidth, targetHeight]

/-- Claim C3: for a box fully inside the image whose derived target sizes fit
(box.height / 0.75 * 0.77 at most imageWidth and box.height / 0.75 at most
imageHeight), the returned CropRegion satisfies 0 <= left, 0 <= top,
left + width <= imageWidth, top + height <= imageHeight, and width/height
is within floor-rounding of 0.77 (width is above 0.77 * height - 1 and at
most 0.77 * (height + 1)). -/
theorem crop_clamp_invariant (box : Box) (iw ih : ℤ)
    (hx : 0 ≤ box.x) (hy : 0 ≤ box.y)
    (hbw : 0 ≤ box.width) (hbh : 0 ≤ box.height)
    (hxw : box.x + box.width ≤ (iw : ℚ)) (hyh : box.y + box.height ≤ (ih : ℚ))
    (htw : box.height / 0.75 * 0.77 ≤ (iw : ℚ)) (hth : box.height / 0.75 ≤ (ih : ℚ)) :
    0 ≤ (calculatePassportCrop box iw ih).left ∧
    0 ≤ (calculatePassportCrop box iw ih).top ∧
    (calculatePassportCrop box iw ih).left + (calculatePassportCrop box iw ih).width ≤ iw ∧
    (calculatePassportCrop box iw ih).top + (calculatePassportCrop box iw ih).height ≤ ih ∧
    0.77 * ((calculatePassportCrop box iw ih).height : ℚ) - 1 <
      ((calculatePassportCrop box iw ih).width : ℚ) ∧
    ((calculatePassportCrop box iw ih).width : ℚ) ≤
      0.77 * (((calculatePassportCrop box iw ih).height : ℚ) + 1) := by
  have htw2 : targetWidth box ≤ (iw : ℚ) := htw
  have hth2 : targetHeight box ≤ (ih : ℚ) := hth
  have hwfloor : ⌊targetWidth box⌋ ≤ iw := by
    have h1 := Int.floor_le_floor htw2
    simpa using h1
  have hhfloor : ⌊targetHeight box⌋ ≤ ih := by
    have h1 := Int.floor_le_floor hth2
    simpa using h1
  have hw : (calculatePassportCrop box iw ih).width = ⌊targetWidth box⌋ :=
    min_eq_right hwfloor
  have hh : (calculatePassportCrop box iw ih).height = ⌊targetHeight box⌋ :=
    min_eq_right hhfloor
  have e2 : targetWidth box = 0.77 * targetHeight box := by
    unfold targetWidth
    ring
  refine ⟨crop_left_nonneg box iw ih, crop_top_nonneg box iw ih,
    crop_left_add_width_le box iw ih, crop_top_add_height_le box iw ih, ?_, ?_⟩
  · rw [hw, hh]
    have f1 : ((⌊targetHeight box⌋ : ℚ)) ≤ targetHeight box := Int.floor_le _
    have f2 : targetWidth box - 1 < ((⌊targetWidth box⌋ : ℚ)) := Int.sub_one_lt_floor _
    have g1 : (0.77 : ℚ) * ((⌊targetHeight box⌋ : ℚ)) ≤ 0.77 * targetHeight box := by
      apply mul_le_mul_of_nonneg_left f1
      norm_num
    linarith
  · rw [hw, hh]
    have u1 : ((⌊targetWidth box⌋ : ℚ)) ≤ targetWidth box := Int.floor_le _
    have u2 : targetHeight box < ((⌊targetHeight box⌋ : ℚ)) + 1 := Int.lt_floor_add_one _
    have u3 : (0.77 : ℚ) * targetHeight box ≤ 0.77 * (((⌊targetHeight box⌋ : ℚ)) + 1) := by
      apply mul_le_mul_of_nonneg_left (le_of_lt u2)
      norm_num
    linarith

/-- Claim C3 witness: the invariant instantiated at the boundary-scenario
input, every hypothesis discharged by evaluation. -/
theorem crop_clamp_invariant_check :
    0 ≤ (calculatePassportCrop ⟨100, 100, 100, 100⟩ 400 400).left ∧
    0 ≤ (calculatePassportCrop ⟨100, 100, 100, 100⟩ 400 400).top ∧
    (calculatePassportCrop ⟨100, 100, 100, 100⟩ 400 400).left +
      (calculatePassportCrop ⟨100, 100, 100, 100⟩ 400 400).width ≤ 400 ∧
    (calculatePassportCrop ⟨100, 100, 100, 100⟩ 400 400).top +
      (calculatePassportCrop ⟨100, 100, 100, 100⟩ 400 400).height ≤ 400 ∧
    0.77 * ((calculatePassportCrop ⟨100, 100, 100, 100⟩ 400 400).height : ℚ) - 1 <
      ((calculatePassportCrop ⟨100, 100, 100, 100⟩ 400 400).width : ℚ) ∧
    ((calculatePassportCrop ⟨100, 100, 100, 100⟩ 400 400).width : ℚ) ≤
      0.77 * (((calculatePassportCrop ⟨100, 100, 100, 100⟩ 400 400).height : ℚ) + 1) :=
  crop_clamp_invariant ⟨100, 100, 100, 100⟩ 400 400 (by norm_num) (by norm_num)
    (by norm_num) (by norm_num) (by norm_num) (by norm_num) (by norm_num) (by norm_num)

/-- Claim C4: when the target rectangle is larger than the image
(targetWidth above imageWidth or targetHeight above imageHeight), the
translate-only clamp followed by the independent max/min capping still
yields a CropRegion entirely inside the image. -/
theorem crop_oversized_still_inbounds (box : Box) (iw ih : ℤ)
    (hover : (iw : ℚ) < targetWidth box ∨ (ih : ℚ) < targetHeight box) :
    0 ≤ (calculatePassportCrop box iw ih).left ∧
    0 ≤ (calculatePassportCrop box iw ih).top ∧
    (calculatePassportCrop box iw ih).left + (calculatePassportCrop box iw ih).width ≤ iw ∧
    (calculatePassportCrop box iw ih).top + (calculatePassportCrop box iw ih).height ≤ ih :=
  ⟨crop_left_nonneg box iw ih, crop_top_nonneg box iw ih,
    crop_left_add_width_le box iw ih, crop_top_add_height_le box iw ih⟩

/-- Claim C4 witness: a face taller than the whole 100 by 100 image
(targetHeight 400); the result still lies inside the image. -/
theorem crop_oversized_still_inbounds_check :
    ((100 : ℤ) : ℚ) < targetHeight ⟨0, 0, 100, 300⟩ ∧
    (0 ≤ (calculatePassportCrop ⟨0, 0, 100, 300⟩ 100 100).left ∧
      0 ≤ (calculatePassportCrop ⟨0, 0, 100, 300⟩ 100 100).top ∧
      (calculatePassportCrop ⟨0, 0, 100, 300⟩ 100 100).left +
        (calculatePassportCrop ⟨0, 0, 100, 300⟩ 100 100).width ≤ 100 ∧
      (calculatePassportCrop ⟨0, 0, 100, 300⟩ 100 100).top +
        (calculatePassportCrop ⟨0, 0, 100, 300⟩ 100 100).height ≤ 100) :=
  ⟨by norm_num [targetHeight],
    crop_oversized_still_inbounds ⟨0, 0, 100, 300⟩ 100 100
      (Or.inr (by norm_num [targetHeight]))⟩

/-- Claim C9: the output width and height depend only on box.height and the
image dimensions; two boxes of equal height give identical output width and
height regardless of box.x, box.y and box.width. -/
theorem crop_size_depends_only_on_height (b1 b2 : Box) (iw ih : ℤ)
    (h : b1.height = b2.height) :
    (calculatePassportCrop b1 iw ih).width = (calculatePassportCrop b2 iw ih).width ∧
    (calculatePassportCrop b1 iw ih).height = (calculatePassportCrop b2 iw ih).height := by
  constructor <;> simp [calculatePassportCrop, targetWidth, targetHeight, h]

/-- Claim C9 witness: two boxes sharing height 50 but differing in every
other field give the same output width and height. -/
theorem crop_size_depends_only_on_height_check :
    (calculatePassportCrop ⟨0, 0, 10, 50⟩ 200 200).width =
      (calculatePassportCrop ⟨7, 3, 99, 50⟩ 200 200).width ∧
    (calculatePassportCrop ⟨0, 0, 10, 50⟩ 200 200).height =
      (calculatePassportCrop ⟨7, 3, 99, 50⟩ 200 200).height :=
  crop_size_depends_only_on_height ⟨0, 0, 10, 50⟩ ⟨7, 3, 99, 50⟩ 200 200 rfl

/-- Claim C10: for fixed non-negative image dimensions, the output width and
height are monotonically non-decreasing in box.height. -/
theorem crop_size_monotone_in_height (b1 b2 : Box) (iw ih : ℤ)
    (hiw : 0 ≤ iw) (hih : 0 ≤ ih)
    (h0 : 0 ≤ b1.height) (h12 : b1.height ≤ b2.height) :
    (calculatePassportCrop b1 iw ih).width ≤ (calculatePassportCrop b2 iw ih).width ∧
    (calculatePassportCrop b1 iw ih).height ≤ (calculatePassportCrop b2 iw ih).height := by
  have hth : targetHeight b1 ≤ targetHeight b2 := by
    unfold targetHeight
    have h075 : (0 : ℚ) < 0.75 := by norm_num
    exact (div_le_div_iff_of_pos_right h075).mpr h12
  have htw : targetWidth b1 ≤ targetWidth b2 := by
    unfold targetWidth
    apply mul_le_mul_of_nonneg_right hth
    norm_num
  exact ⟨min_le_min (le_refl iw) (Int.floor_le_floor htw),
    min_le_min (le_refl ih) (Int.floor_le_floor hth)⟩

/-- Claim C10 witness: box heights 30 and 60 in a 500 by 500 image give
non-decreasing output widths (30 to 61) and heights (40 to 80). -/
theorem crop_size_monotone_in_height_check :
    (calculatePassportCrop ⟨0, 0, 10, 30⟩ 500 500).width ≤
      (calculatePassportCrop ⟨5, 5, 20, 60⟩ 500 500).width ∧
    (calculatePassportCrop ⟨0, 0, 10, 30⟩ 500 500).height ≤
      (calculatePassportCrop ⟨5, 5, 20, 60⟩ 500 500).height :=
  crop_size_monotone_in_height ⟨0, 0, 10, 30⟩ ⟨5, 5, 20, 60⟩ 500 500
    (by norm_num) (by norm_num) (by norm_num) (by norm_num)

/-- Claim C1 counterexample: two faces share the maximal box area (both
10 by 10), yet the selector returns the second face, not the first: the
reducer keeps `current` when `prev.box.area > current.box.area` is false,
so ties go to the later face. -/
theorem bestFace_tie_returns_second :
    bestFace ⟨⟨0, 0, 10, 10⟩, 1⟩ [⟨⟨50, 50, 10, 10⟩, 1 / 2⟩] = ⟨⟨50, 50, 10, 10⟩, 1 / 2⟩ ∧
    Box.area ⟨0, 0, 10, 10⟩ = Box.area ⟨50, 50, 10, 10⟩ ∧
    (⟨⟨50, 50, 10, 10⟩, 1 / 2⟩ : DetectedFace) ≠ ⟨⟨0, 0, 10, 10⟩, 1⟩ := by
  refine ⟨?_, by norm_num [Box.area], ?_⟩
  · norm_num [bestFace, pickLarger, Box.area]
  · intro hcontra
    have hbox := congrArg (fun f => DetectedFace.box f) hcontra
    have hx := congrArg (fun b => Box.x b) hbox
    norm_num at hx

/-- Claim C1 amended: on every non-empty detection list the selector returns
a face of maximal area, and every face after it in input order has strictly
smaller area — i.e. among the faces sharing the maximal area it returns the
last in input order (last-encountered-wins), not the first. -/
theorem bestFace_last_of_maximal (first : DetectedFace) (rest : List DetectedFace) :
    ∃ before after, first :: rest = before ++ bestFace first rest :: after ∧
      (∀ c ∈ before, c.box.area ≤ (bestFace first rest).box.area) ∧
      (∀ c ∈ after, c.box.area < (bestFace first rest).box.area) := by
  induction rest generalizing first with
  | nil => exact ⟨[], [], rfl, by simp, by simp⟩
  | cons g fs ih =>
      have hstep : bestFace first (g :: fs) = bestFace (pickLarger first g) fs := rfl
      by_cases h : first.box.area > g.box.area
      · have hp : pickLarger first g = first := if_pos h
        obtain ⟨b1, a1, heq, hb, ha⟩ := ih first
        rw [hstep, hp]
        cases b1 with
        | nil =>
            simp only [List.nil_append, List.cons.injEq] at heq
            obtain ⟨hf, hfs⟩ := heq
            refine ⟨[], g :: fs, ?_, by simp, ?_⟩
            · rw [List.nil_append, ← hf]
            · intro c hc
              rcases List.mem_cons.mp hc with rfl | hcf
              · rw [← hf]
                exact h
              · exact ha c (hfs ▸ hcf)
        | cons b bs =>
            simp only [List.cons_append, List.cons.injEq] at heq
            obtain ⟨hfb, hfs⟩ := heq
            refine ⟨first :: g :: bs, a1, ?_, ?_, ha⟩
            · nth_rewrite 1 [hfs]
              rfl
            · intro c hc
              have hfirst : first.box.area ≤ (bestFace first fs).box.area := by
                have hbb := hb b (List.mem_cons_self b bs)
                rw [← hfb] at hbb
                exact hbb
              rcases List.mem_cons.mp hc with rfl | hc2
              · exact hfirst
              · rcases List.mem_cons.mp hc2 with rfl | hc3
                · exact le_trans (le_of_lt h) hfirst
                · exact hb c (List.mem_cons_of_mem b hc3)
      · have hp : pickLarger first g = g := if_neg h
        obtain ⟨b1, a1, heq, hb, ha⟩ := ih g
        rw [hstep, hp]
        refine ⟨first :: b1, a1, ?_, ?_, ha⟩
        · rw [List.cons_append, ← heq]
        · intro c hc
          rcases List.mem_cons.mp hc with rfl | hc2
          · exact le_trans (le_of_not_lt h) (bestFace_init_area_le fs g)
          · exact hb c hc2

/-- Claim C1 amended, checked at the tie input: the decomposition places the
returned face last among the two equal-area faces. -/
theorem bestFace_last_of_maximal_check :
    ∃ before after,
      ([⟨⟨0, 0, 10, 10⟩, 1⟩, ⟨⟨50, 50, 10, 10⟩, 1 / 2⟩] : List DetectedFace) =
        before ++ bestFace ⟨⟨0, 0, 10, 10⟩, 1⟩ [⟨⟨50, 50, 10, 10⟩, 1 / 2⟩] :: after ∧
      (∀ c ∈ before,
        c.box.area ≤ (bestFace ⟨⟨0, 0, 10, 10⟩, 1⟩ [⟨⟨50, 50, 10, 10⟩, 1 / 2⟩]).box.area) ∧
      (∀ c ∈ after,
        c.box.area < (bestFace ⟨⟨0, 0, 10, 10⟩, 1⟩ [⟨⟨50, 50, 10, 10⟩, 1 / 2⟩]).box.area) :=
  bestFace_last_of_maximal ⟨⟨0, 0, 10, 10⟩, 1⟩ [⟨⟨50, 50, 10, 10⟩, 1 / 2⟩]

/-- Claim C5: the face the selector returns has area at least that of every
face in the (non-empty) detection list. -/
theorem bestFace_area_ge_all (first : DetectedFace) (rest : List DetectedFace) :
    ∀ c ∈ first :: rest, c.box.area ≤ (bestFace first rest).box.area := by
  induction rest generalizing first with
  | nil =>
      intro c hc
      rw [List.mem_singleton] at hc
      subst hc
      exact le_refl _
  | cons g fs ih =>
      intro c hc
      rcases List.mem_cons.mp hc with rfl | hc2
      · exact le_trans (pickLarger_left_le c g) (bestFace_init_area_le fs (pickLarger c g))
      · rcases List.mem_cons.mp hc2 with rfl | hc3
        · exact le_trans (pickLarger_right_le first c) (bestFace_init_area_le fs (pickLarger first c))
        · exact ih (pickLarger first g) c (List.mem_cons_of_mem _ hc3)

/-- Claim C5 witness: the selector's pick dominates a concrete two-face
list's first member. -/
theorem bestFace_area_ge_all_check :
    (⟨⟨0, 0, 2, 3⟩, 1⟩ : DetectedFace).box.area ≤
      (bestFace ⟨⟨0, 0, 2, 3⟩, 1⟩ [⟨⟨1, 1, 5, 5⟩, 1 / 2⟩]).box.area :=
  bestFace_area_ge_all ⟨⟨0, 0, 2, 3⟩, 1⟩ [⟨⟨1, 1, 5, 5⟩, 1 / 2⟩]
    ⟨⟨0, 0, 2, 3⟩, 1⟩ (List.mem_cons_self _ _)

/-- Claim C7: when face detection returns no faces, the pipeline answers 422
with the JSON error body, and the result does not depend on the Face
Selector or the Crop Geometry Calculator passed in — they are never
invoked on that request. -/
theorem pipeline_empty_detections_rejected
    (selectA selectB : DetectedFace → List DetectedFace → DetectedFace)
    (cropA cropB : Box → ℤ → ℤ → CropRegion)
    (transform : List ℕ → CropRegion → List ℕ) (encode : List ℕ → String)
    (f : UploadedFile) (imgWidth imgHeight : ℤ) (format : Option String) :
    handleCrop selectA cropA transform encode (some f) imgWidth imgHeight [] format
      = CropResponse.noFace "No face detected in the photo." ∧
    (handleCrop selectA cropA transform encode (some f) imgWidth imgHeight [] format).status
      = 422 ∧
    handleCrop selectA cropA transform encode (some f) imgWidth imgHeight [] format
      = handleCrop selectB cropB transform encode (some f) imgWidth imgHeight [] format :=
  ⟨rfl, rfl, rfl⟩

/-- Claim C8, evaluated at the failing input: a base64 request with a
1234-byte file and one detected face of confidence 9/10 gets the JSON
envelope with the data URI and originalSize, but its faceConfidence is
`none` — src/server.js line 113 reads `box.score`, a property the box
object does not carry, so the serialized meta omits the key even though
the selected face's detector confidence is 9/10. -/
theorem pipeline_base64_omits_confidence :
    handleCrop bestFace calculatePassportCrop (fun _ _ => [1]) (fun _ => "AAAA")
        (some ⟨[0], 1234⟩) 400 400 [⟨⟨100, 100, 100, 100⟩, 9 / 10⟩] (some "base64")
      = CropResponse.jsonImage ("data:image/jpeg;base64," ++ "AAAA") 1234 none ∧
    (bestFace ⟨⟨100, 100, 100, 100⟩, 9 / 10⟩ []).score = 9 / 10 := by
  constructor
  · simp [handleCrop, returnFormat, Box.scoreProperty]
  · rfl

/-- Documentation of the duplicated entry point: at the spec's boundary
scenario the `src/unnamed/part_000` variant of the calculator, which applies
Math.round with no max/min capping, returns left 99 and width 103 where the
canonical floor-based calculator returns left 98 and width 102. -/
theorem calculatePassportCropRound_differs :
    calculatePassportCropRound ⟨100, 100, 100, 100⟩ 400 400 = ⟨99, 73, 103, 133⟩ ∧
    calculatePassportCropRound ⟨100, 100, 100, 100⟩ 400 400 ≠
      calculatePassportCrop ⟨100, 100, 100, 100⟩ 400 400 := by
  have h1 : calculatePassportCropRound ⟨100, 100, 100, 100⟩ 400 400 = ⟨99, 73, 103, 133⟩ := by
    norm_num [calculatePassportCropRound, finalCropX, finalCropY, clampLow, clampHigh,
      initialCropX, initialCropY, targetWidth, targetHeight, round_eq]
  have h2 : calculatePassportCrop ⟨100, 100, 100, 100⟩ 400 400 = ⟨98, 73, 102, 133⟩ := by
    norm_num [calculatePassportCrop, finalCropX, finalCropY, clampLow, clampHigh,
      initialCropX, initialCropY, targetWidth, targetHeight]
  refine ⟨h1, ?_⟩
  rw [h1, h2]
  intro hcontra
  have hleft := congrArg (fun r => CropRegion.left r) hcontra
  norm_num at hleft

end PassportPhoto
